import Mathlib

/-!
Verification of the `concurrent-3` service: a Flask app (`app.py`) with two
routes (`GET /` and `GET /data`) and a formatting utility (`utils.py`) with
`format_response` and a `DataProcessor` wrapper.

JSON values are embedded as an inductive `Value`; the outcome of the outbound
HTTP call made by the `/data` handler is an environment input (the handler is
a pure function of that outcome); Flask's `jsonify(x)` / `jsonify(x), 500`
return forms are embedded as an `HttpResult` record of status code and body.
-/

/-- JSON values: null, booleans, numbers, strings, arrays and objects
(an object is an insertion-ordered association list, as a Python dict). -/
inductive Value where
  | null : Value
  | bool : Bool → Value
  | num : Int → Value
  | str : String → Value
  | arr : List Value → Value
  | obj : List (String × Value) → Value

/-- True exactly on JSON objects. -/
def Value.isObj : Value → Bool
  | .obj _ => true
  | _ => false

/-- Key list of a JSON object, in insertion order; `[]` on non-objects. -/
def Value.keyList : Value → List String
  | .obj fs => fs.map Prod.fst
  | _ => []

/-- Value stored under key `k` of a JSON object (first occurrence). -/
def Value.lookupKey : Value → String → Option Value
  | .obj fs, k => fs.lookup k
  | _, _ => none

/-- Embedding of `utils.format_response` (utils.py lines 2-8): returns the
dict literal with the three keys `status`, `data`, `timestamp` in source
order; the timestamp is the hardcoded string literal from the source. -/
def format_response (data : Value) : Value :=
  Value.obj [
    ("status", Value.str "success"),
    ("data", data),
    ("timestamp", Value.str "2024-01-01T00:00:00Z")
  ]

/-- Embedding of `utils.DataProcessor` (utils.py lines 10-15): `__init__`
stores the opaque configuration value on the instance; nothing else is
stored. The configuration type is an arbitrary type `α`. -/
structure DataProcessor (α : Type) where
  config : α

/-- Embedding of `DataProcessor.process` (utils.py lines 14-15): delegates
to `format_response`; `self` is not consulted. -/
def DataProcessor.process (_self : DataProcessor α) (data : Value) : Value :=
  format_response data

/-- An inbound HTTP request as visible to a Flask handler: headers and query
parameters (the handlers in app.py read neither). -/
structure HttpRequest where
  headers : List (String × String)
  queryParams : List (String × String)
deriving DecidableEq, Repr

/-- A handler result: HTTP status code plus JSON body, covering both return
forms used in app.py (`jsonify(x)` is status 200; `jsonify(x), 500` is
status 500). -/
structure HttpResult where
  status : Nat
  body : Value

/-- Embedding of the `hello` handler (app.py lines 7-9): returns the fixed
message object with Flask's default status 200; the request is ignored. -/
def hello (_req : HttpRequest) : HttpResult :=
  ⟨200, Value.obj [("message", Value.str "Hello from Python!")]⟩

/-- The fixed upstream URL of the outbound GET in app.py line 13. -/
def upstreamURL : String := "https://api.example.com/data"

/-- An exception from the `requests` library (all are subclasses of
`requests.exceptions.RequestException`). A connection error carries the
host, url and reason from which `urllib3` builds its message; `other`
covers the remaining subclasses with their stringified message. -/
inductive RequestError where
  | connectionError : String → String → String → RequestError
  | other : String → RequestError
deriving DecidableEq, Repr

/-- Stringification `str(e)` of a requests exception. For a connection
error, `requests` wraps `urllib3.exceptions.MaxRetryError`, whose message is
`"<host>: Max retries exceeded with url: <url> (Caused by <reason>)"`. -/
def RequestError.toMessage : RequestError → String
  | .connectionError host url reason =>
      host ++ ": Max retries exceeded with url: " ++ url
        ++ " (Caused by " ++ reason ++ ")"
  | .other msg => msg

/-- An upstream HTTP response as the handler observes it: the status code,
and the result of `response.json()` — `.ok b` when the body parses to the
JSON value `b`, `.error m` when parsing raises
`requests.exceptions.JSONDecodeError` (a `RequestException` in requests
since 2.27) with message `m`. -/
structure HttpResponse where
  statusCode : Nat
  jsonBody : Except String Value

/-- Outcome of `requests.get(upstreamURL)` at app.py line 13: either the
call raised a requests exception, or it returned a response. -/
inductive GetOutcome where
  | raised : RequestError → GetOutcome
  | returned : HttpResponse → GetOutcome

/-- Embedding of `response.raise_for_status()` (requests semantics): raises
`requests.exceptions.HTTPError` exactly when the status code is in
`[400, 600)`, with a client-error or server-error message; returns the
message of the exception raised, or `none`. -/
def raiseForStatusError (r : HttpResponse) : Option String :=
  if 400 ≤ r.statusCode ∧ r.statusCode < 500 then
    some (toString r.statusCode ++ " Client Error for url: " ++ upstreamURL)
  else if 500 ≤ r.statusCode ∧ r.statusCode < 600 then
    some (toString r.statusCode ++ " Server Error for url: " ++ upstreamURL)
  else
    none

/-- The JSON error body built by the `except` clause of `get_data`
(app.py line 18): `jsonify` of the dict `\x7b'error': str(e)\x7d`. -/
def errorBody (msg : String) : Value :=
  Value.obj [("error", Value.str msg)]

/-- Embedding of the `get_data` handler (app.py lines 11-18) as a function
of the outcome of its single outbound GET. The try block performs
`requests.get`, then `raise_for_status`, then returns
`jsonify(response.json())`; any `RequestException` raised at any of those
three points (a connection error, the `HTTPError` from `raise_for_status`,
or the `JSONDecodeError` from `response.json()`) is caught by the single
`except` clause and turned into status 500 with the error body. No other
call site exists and no retry is made: the handler consumes exactly one
outcome. -/
def get_data (outcome : GetOutcome) : HttpResult :=
  match outcome with
  | .raised e => ⟨500, errorBody e.toMessage⟩
  | .returned r =>
    match raiseForStatusError r with
    | some m => ⟨500, errorBody m⟩
    | none =>
      match r.jsonBody with
      | .ok b => ⟨200, b⟩
      | .error m => ⟨500, errorBody m⟩

/-- Message of the first `RequestException` raised by the outbound GET
together with the immediately following `raise_for_status`, when one is
raised: either `requests.get` itself raised, or `raise_for_status` raised
on the returned response. -/
def getRaisesRequestException : GetOutcome → Option String
  | .raised e => some e.toMessage
  | .returned r => raiseForStatusError r

/-- Helper: the envelope built by `format_response` strictly contains its
argument, so it is never equal to it. -/
theorem format_response_ne (X : Value) : format_response X ≠ X := by
  intro h
  have hs : sizeOf (format_response X) = sizeOf X := congrArg sizeOf h
  simp [format_response] at hs
  omega

/-- Helper: the stringification of a requests connection error is never the
empty string (it always contains the literal fragment built by urllib3). -/
theorem connectionError_toMessage_ne_empty (h u r : String) :
    RequestError.toMessage (.connectionError h u r) ≠ "" := by
  simp [RequestError.toMessage]
  intro hcontra
  have hlen := congrArg String.length hcontra
  simp [String.length_append] at hlen
  exact absurd hlen.2 (by decide)

/-- Claim C1: for every value X, `format_response X` is exactly the
dictionary with status "success", data X and the fixed literal timestamp,
and it is deterministic: equal inputs give equal envelopes. -/
theorem format_response_envelope (X Y : Value) (h : Y = X) :
    format_response X = Value.obj [
      ("status", Value.str "success"),
      ("data", X),
      ("timestamp", Value.str "2024-01-01T00:00:00Z")]
    ∧ format_response Y = format_response X :=
  ⟨rfl, by rw [h]⟩

/-- Witness for C1 at X = Y = null. -/
theorem format_response_envelope_witness :
    format_response Value.null = Value.obj [
      ("status", Value.str "success"),
      ("data", Value.null),
      ("timestamp", Value.str "2024-01-01T00:00:00Z")]
    ∧ format_response Value.null = format_response Value.null :=
  format_response_envelope Value.null Value.null rfl

/-- Counterexample to claim C2 as stated: at X = null, applying
`format_response` twice does not give the same envelope as applying it
once (the second application wraps the first envelope as the data field). -/
theorem format_response_not_idempotent_cex :
    format_response (format_response Value.null) ≠ format_response Value.null := by
  simp [format_response]

/-- Claim C2 (amended): `format_response` is not idempotent; applying it
twice yields the envelope whose data field is the first envelope, and this
differs from the single application for every input X. -/
theorem format_response_double_wrap (X : Value) :
    format_response (format_response X) = Value.obj [
      ("status", Value.str "success"),
      ("data", format_response X),
      ("timestamp", Value.str "2024-01-01T00:00:00Z")]
    ∧ format_response (format_response X) ≠ format_response X :=
  ⟨rfl, format_response_ne (format_response X)⟩

/-- Claim C3: for every configuration value and every data value,
`DataProcessor(config).process(X)` equals `format_response(X)`: the stored
configuration has no effect on the result. -/
theorem process_eq_format_response {α : Type} (config : α) (X : Value) :
    (DataProcessor.mk config).process X = format_response X :=
  rfl

/-- Claim C4: whenever the outbound GET (or the `raise_for_status` call on
its response) raises a request exception with stringification m, the
`get_data` handler returns status 500 with body exactly the error object
for m; the single except clause is the only handler and no retry occurs
(the handler is a function of one outcome). -/
theorem get_data_request_exception_500 (o : GetOutcome) (m : String)
    (h : getRaisesRequestException o = some m) :
    get_data o = ⟨500, errorBody m⟩ := by
  cases o with
  | raised e =>
    simp [getRaisesRequestException] at h
    simp [get_data, h]
  | returned r =>
    simp [getRaisesRequestException] at h
    simp [get_data, h]

/-- Witness for C4: a connection-style request exception with message
"boom" yields status 500 and the corresponding error body. -/
theorem get_data_request_exception_500_witness :
    get_data (GetOutcome.raised (RequestError.other "boom"))
      = ⟨500, errorBody "boom"⟩ :=
  get_data_request_exception_500 (GetOutcome.raised (RequestError.other "boom")) "boom" rfl

/-- Claim C5: if the upstream GET returns a 2xx status whose body parses to
the JSON value b, the `get_data` handler returns status 200 with body
exactly b. -/
theorem get_data_success_relay (r : HttpResponse) (b : Value)
    (h2xx : 200 ≤ r.statusCode ∧ r.statusCode < 300)
    (hjson : r.jsonBody = Except.ok b) :
    get_data (GetOutcome.returned r) = ⟨200, b⟩ := by
  have h1 : ¬(400 ≤ r.statusCode ∧ r.statusCode < 500) := by omega
  have h2 : ¬(500 ≤ r.statusCode ∧ r.statusCode < 600) := by omega
  simp [get_data, raiseForStatusError, h1, h2, hjson]

/-- Witness for C5: a 200 response with body parsing to the object
with key foo mapped to 1 is relayed verbatim. -/
theorem get_data_success_relay_witness :
    get_data (GetOutcome.returned ⟨200, Except.ok (Value.obj [("foo", Value.num 1)])⟩)
      = ⟨200, Value.obj [("foo", Value.num 1)]⟩ :=
  get_data_success_relay ⟨200, Except.ok (Value.obj [("foo", Value.num 1)])⟩
    (Value.obj [("foo", Value.num 1)]) (by decide) rfl

/-- Claim C6: the `hello` handler returns status 200 with the fixed message
body for every request, and its response does not depend on any part of
the request. -/
theorem hello_const (req : HttpRequest) :
    hello req = ⟨200, Value.obj [("message", Value.str "Hello from Python!")]⟩
    ∧ ∀ req2 : HttpRequest, hello req = hello req2 :=
  ⟨rfl, fun _ => rfl⟩

/-- Claim C7: on a connection error the `get_data` response has status 500
and its body holds, under the key error, a string value that is not
empty. -/
theorem get_data_connection_error_500_nonempty (host url reason : String) :
    (get_data (GetOutcome.raised (RequestError.connectionError host url reason))).status = 500
    ∧ ∃ s : String,
        (get_data (GetOutcome.raised
            (RequestError.connectionError host url reason))).body.lookupKey "error"
          = some (Value.str s)
        ∧ s ≠ "" := by
  refine ⟨rfl, RequestError.toMessage (.connectionError host url reason), ?_, ?_⟩
  · simp [get_data, errorBody, Value.lookupKey]
  · exact connectionError_toMessage_ne_empty host url reason

/-- Claim C8: every envelope produced by `format_response`, and hence by
`DataProcessor.process`, has exactly the keys status, data, timestamp in
that order. -/
theorem envelope_exactly_three_keys {α : Type} (config : α) (X : Value) :
    (format_response X).keyList = ["status", "data", "timestamp"]
    ∧ ((DataProcessor.mk config).process X).keyList = ["status", "data", "timestamp"] :=
  ⟨rfl, rfl⟩

/-- Claim C9: `format_response` is total and pure: the embedding gives it
the type Value to Value with no failure result, faithful to the source
body being a single dict literal with no failure path, so every input
yields an envelope object; and its result depends only on its argument,
so equal inputs give equal results. -/
theorem format_response_total_pure (X Y : Value) (h : Y = X) :
    (∃ e : Value, format_response X = e ∧ e.isObj = true)
    ∧ format_response Y = format_response X :=
  ⟨⟨format_response X, rfl, rfl⟩, by rw [h]⟩

/-- Witness for C9 at X = Y = null. -/
theorem format_response_total_pure_witness :
    (∃ e : Value, format_response Value.null = e ∧ e.isObj = true)
    ∧ format_response Value.null = format_response Value.null :=
  format_response_total_pure Value.null Value.null rfl

/-- Claim C10: if the upstream GET returns a 2xx status but its body fails
to parse as JSON (message m), the JSONDecodeError is a RequestException
and is caught by the same except clause, so `get_data` returns status 500
with the error body for m rather than a 200 response or an unhandled
exception. -/
theorem get_data_bad_json_500 (r : HttpResponse) (m : String)
    (h2xx : 200 ≤ r.statusCode ∧ r.statusCode < 300)
    (hjson : r.jsonBody = Except.error m) :
    get_data (GetOutcome.returned r) = ⟨500, errorBody m⟩ := by
  have h1 : ¬(400 ≤ r.statusCode ∧ r.statusCode < 500) := by omega
  have h2 : ¬(500 ≤ r.statusCode ∧ r.statusCode < 600) := by omega
  simp [get_data, raiseForStatusError, h1, h2, hjson]

/-- Witness for C10: a 200 response whose body fails to parse yields
status 500 with the decode-error message in the error body. -/
theorem get_data_bad_json_500_witness :
    get_data (GetOutcome.returned ⟨200, Except.error "Expecting value"⟩)
      = ⟨500, errorBody "Expecting value"⟩ :=
  get_data_bad_json_500 ⟨200, Except.error "Expecting value"⟩ "Expecting value" (by decide) rfl
